import Mathlib

/-!
Shallow embedding of the unifi_pdu integration (controller.py, switch.py,
errors.py, const.py and the package init module), developed to check the
session-manager / switch-adapter specification against the code.
-/

namespace UnifiPdu

/-! ### Object ids and the outlet relay command (switch.py)

`async_outlet_control_fn` does `mac, _, index = obj_id.partition("_")`,
looks up `api.devices[mac]` and issues
`DeviceSetOutletRelayRequest.create(device, int(index), target)`.
-/

/-- Split a character list at the first underscore: the part before it and the
remainder after it; `none` when no underscore occurs. -/
def splitAtFirstUnderscore : List Char → Option (List Char × List Char)
  | [] => none
  | c :: cs =>
    if c = '_' then some ([], cs)
    else (splitAtFirstUnderscore cs).map fun p => (c :: p.1, p.2)

/-- Model of `obj_id.partition("_")` as used in the source: the text before the
first underscore and the remainder after it; when no underscore occurs the whole
string is the first component and the remainder is empty. -/
def pyPartitionUnderscore (s : String) : String × String :=
  match splitAtFirstUnderscore s.data with
  | some (a, b) => (String.mk a, String.mk b)
  | none => (s, "")

/-- Model of the digit-string fragment of `int(...)`: a nonempty all-digit
string parses to its decimal value, anything else raises (returns `none`).
The outlet indices appearing in object ids are plain digit strings. -/
def pyIntNat (s : String) : Option Nat :=
  if s.data ≠ [] ∧ s.data.all Char.isDigit then
    some (s.data.foldl (fun acc c => 10 * acc + (c.toNat - 48)) 0)
  else none

/-- A relay-set command as received by the controller client:
`DeviceSetOutletRelayRequest.create(device, int(index), target)` with the
device looked up by mac. -/
structure RelayCommand where
  mac : String
  outlet_index : Nat
  relay : Bool
deriving DecidableEq, Repr

/-- `async_outlet_control_fn` (switch.py 42-48): partitions the object id at
the first underscore into mac and index, looks the device up by mac
(`KeyError`, modelled as `none`, when absent) and issues the relay-set request
with the parsed index and the target boolean. -/
def async_outlet_control_fn (devices : List String) (obj_id : String)
    (target : Bool) : Option RelayCommand :=
  let mac := (pyPartitionUnderscore obj_id).1
  let index := (pyPartitionUnderscore obj_id).2
  if mac ∈ devices then (pyIntNat index).map fun i => ⟨mac, i, target⟩
  else none

/-- Cached switch-adapter state relevant to turn on / turn off:
the `_attr_is_on` flag (`none` before first initialisation). -/
structure AdapterState where
  attr_is_on : Option Bool
deriving DecidableEq, Repr

/-- Result of awaiting the relay-set request. -/
inductive CommandResult
  | ok
  | err
deriving DecidableEq, Repr

/-- `UnifiSwitchEntity.async_turn_on` (switch.py 137-142): awaits
`control_fn(api, obj_id, True)` and only afterwards assigns
`self._attr_is_on = True`; when the await raises, the assignment is never
reached and the exception propagates (carried here in the result).
`none` models an exception raised before the request is issued
(unknown device or unparsable index). -/
def async_turn_on (devices : List String) (obj_id : String)
    (request_result : CommandResult) (st : AdapterState) :
    Option (RelayCommand × CommandResult × AdapterState) :=
  match async_outlet_control_fn devices obj_id true with
  | none => none
  | some cmd =>
    match request_result with
    | .err => some (cmd, .err, st)
    | .ok => some (cmd, .ok, { st with attr_is_on := some true })

/-- `UnifiSwitchEntity.async_turn_off` (switch.py 144-149): same shape with
target `False`. -/
def async_turn_off (devices : List String) (obj_id : String)
    (request_result : CommandResult) (st : AdapterState) :
    Option (RelayCommand × CommandResult × AdapterState) :=
  match async_outlet_control_fn devices obj_id false with
  | none => none
  | some cmd =>
    match request_result with
    | .err => some (cmd, .err, st)
    | .ok => some (cmd, .ok, { st with attr_is_on := some false })

/-! ### Error taxonomy of the initial connect (controller.py 229-289, init module 17-54) -/

/-- The exception kinds that `get_unifi_controller` can catch from
`check_unifi_os()` / `login()` under its ten-second timeout, in the
granularity of its except clauses.  `otherAiounifi` is any further
`AiounifiException` (the unknown-communication / unrecognized-protocol
case caught by the final clause). -/
inductive AiounifiError
  | unauthorized
  | loginRequired
  | timeoutError
  | badGateway
  | serviceUnavailable
  | requestError
  | responseError
  | otherAiounifi
deriving DecidableEq, Repr

/-- The two error kinds the integration raises during the initial connect. -/
inductive SetupError
  | invalidAuth
  | cannotConnect
deriving DecidableEq, Repr

/-- The except clauses of `get_unifi_controller` (controller.py 258-287) in
source order: `Unauthorized` raises `InvalidAuth`; timeout, `BadGateway`,
`ServiceUnavailable`, `RequestError` and `ResponseError` raise
`CannotConnect`; `LoginRequired` raises `InvalidAuth`; any remaining
`AiounifiException` raises `InvalidAuth`. -/
def get_unifi_controller_errmap : AiounifiError → SetupError
  | .unauthorized => .invalidAuth
  | .timeoutError => .cannotConnect
  | .badGateway => .cannotConnect
  | .serviceUnavailable => .cannotConnect
  | .requestError => .cannotConnect
  | .responseError => .cannotConnect
  | .loginRequired => .invalidAuth
  | .otherAiounifi => .invalidAuth

/-- The host user flows a failed setup is mapped to. -/
inductive HostFlow
  | configEntryNotReady
  | configEntryAuthFailed
deriving DecidableEq, Repr

/-- `async_setup_entry` of the package init module (lines 39-43):
`CannotConnect` is re-raised as `ConfigEntryNotReady` (retry setup later) and
`InvalidAuth` as `ConfigEntryAuthFailed` (re-authenticate). -/
def async_setup_entry_errmap : SetupError → HostFlow
  | .cannotConnect => .configEntryNotReady
  | .invalidAuth => .configEntryAuthFailed

/-- C1, as stated, is false: with the turn-on scenario id and a relay-set
command that fails, the cached flag is NOT set to the target value (the
assignment sits after the await and is never reached), so the flag is not
written "immediately, independent of command completion". -/
theorem c1_counterexample :
    async_turn_on ["aa:bb:cc:dd:ee:ff"] "aa:bb:cc:dd:ee:ff_1"
        CommandResult.err ⟨some false⟩ =
      some (⟨"aa:bb:cc:dd:ee:ff", 1, true⟩, CommandResult.err, ⟨some false⟩) ∧
    (some false : Option Bool) ≠ some true := by
  constructor
  · rfl
  · decide

/-- C1 amended: turnOn/turnOff issue the relay-set command with the mac part
(text before the first underscore), the outlet index (int of the remainder)
and the target boolean; on success the cached flag is set to the target; when
the command call fails, the failure propagates and the cached flag keeps its
previous value (the optimistic write never executes, so there is nothing to
roll back). -/
theorem c1_turn_on_off (devices : List String) (obj_id : String)
    (st : AdapterState) (cmdOn cmdOff : RelayCommand)
    (hOn : async_outlet_control_fn devices obj_id true = some cmdOn)
    (hOff : async_outlet_control_fn devices obj_id false = some cmdOff) :
    cmdOn.mac = (pyPartitionUnderscore obj_id).1 ∧
    pyIntNat (pyPartitionUnderscore obj_id).2 = some cmdOn.outlet_index ∧
    cmdOn.relay = true ∧
    cmdOff.mac = (pyPartitionUnderscore obj_id).1 ∧
    pyIntNat (pyPartitionUnderscore obj_id).2 = some cmdOff.outlet_index ∧
    cmdOff.relay = false ∧
    async_turn_on devices obj_id .ok st = some (cmdOn, .ok, ⟨some true⟩) ∧
    async_turn_on devices obj_id .err st = some (cmdOn, .err, st) ∧
    async_turn_off devices obj_id .ok st = some (cmdOff, .ok, ⟨some false⟩) ∧
    async_turn_off devices obj_id .err st = some (cmdOff, .err, st) := by
  have hOn' := hOn
  have hOff' := hOff
  unfold async_outlet_control_fn at hOn' hOff'
  by_cases hm : (pyPartitionUnderscore obj_id).1 ∈ devices
  · simp only [if_pos hm, Option.map_eq_some'] at hOn' hOff'
    obtain ⟨i, hi, hcmd⟩ := hOn'
    obtain ⟨j, hj, hcmd'⟩ := hOff'
    subst hcmd
    subst hcmd'
    refine ⟨rfl, hi ▸ rfl, rfl, rfl, hj ▸ rfl, rfl, ?_, ?_, ?_, ?_⟩ <;>
      simp [async_turn_on, async_turn_off, hOn, hOff]
  · simp [if_neg hm] at hOn'

/-- Witness for `c1_turn_on_off` at the turn-on scenario input. -/
theorem c1_turn_on_off_witness :
    (async_outlet_control_fn ["aa:bb:cc:dd:ee:ff"] "aa:bb:cc:dd:ee:ff_1" true =
      some ⟨"aa:bb:cc:dd:ee:ff", 1, true⟩) ∧
    (async_outlet_control_fn ["aa:bb:cc:dd:ee:ff"] "aa:bb:cc:dd:ee:ff_1" false =
      some ⟨"aa:bb:cc:dd:ee:ff", 1, false⟩) ∧
    ((⟨"aa:bb:cc:dd:ee:ff", 1, true⟩ : RelayCommand).mac =
      (pyPartitionUnderscore "aa:bb:cc:dd:ee:ff_1").1 ∧
    pyIntNat (pyPartitionUnderscore "aa:bb:cc:dd:ee:ff_1").2 = some 1 ∧
    (⟨"aa:bb:cc:dd:ee:ff", 1, true⟩ : RelayCommand).relay = true ∧
    (⟨"aa:bb:cc:dd:ee:ff", 1, false⟩ : RelayCommand).mac =
      (pyPartitionUnderscore "aa:bb:cc:dd:ee:ff_1").1 ∧
    pyIntNat (pyPartitionUnderscore "aa:bb:cc:dd:ee:ff_1").2 = some 1 ∧
    (⟨"aa:bb:cc:dd:ee:ff", 1, false⟩ : RelayCommand).relay = false ∧
    async_turn_on ["aa:bb:cc:dd:ee:ff"] "aa:bb:cc:dd:ee:ff_1" .ok ⟨some false⟩ =
      some (⟨"aa:bb:cc:dd:ee:ff", 1, true⟩, .ok, ⟨some true⟩) ∧
    async_turn_on ["aa:bb:cc:dd:ee:ff"] "aa:bb:cc:dd:ee:ff_1" .err ⟨some false⟩ =
      some (⟨"aa:bb:cc:dd:ee:ff", 1, true⟩, .err, ⟨some false⟩) ∧
    async_turn_off ["aa:bb:cc:dd:ee:ff"] "aa:bb:cc:dd:ee:ff_1" .ok ⟨some false⟩ =
      some (⟨"aa:bb:cc:dd:ee:ff", 1, false⟩, .ok, ⟨some false⟩) ∧
    async_turn_off ["aa:bb:cc:dd:ee:ff"] "aa:bb:cc:dd:ee:ff_1" .err ⟨some false⟩ =
      some (⟨"aa:bb:cc:dd:ee:ff", 1, false⟩, .err, ⟨some false⟩)) :=
  ⟨rfl, rfl,
    c1_turn_on_off ["aa:bb:cc:dd:ee:ff"] "aa:bb:cc:dd:ee:ff_1" ⟨some false⟩
      ⟨"aa:bb:cc:dd:ee:ff", 1, true⟩ ⟨"aa:bb:cc:dd:ee:ff", 1, false⟩ rfl rfl⟩

/-- C2: unauthorized, login-required and unknown-protocol responses raise
`InvalidAuth` and never `CannotConnect`; network/timeout failures and
gateway/service-unavailable responses raise `CannotConnect` and never
`InvalidAuth`; setup surfaces exactly those two kinds, mapped respectively to
the re-authenticate and retry-setup-later host flows. -/
theorem c2_connect_error_taxonomy :
    (∀ e : AiounifiError,
      get_unifi_controller_errmap e = .invalidAuth ↔
        (e = .unauthorized ∨ e = .loginRequired ∨ e = .otherAiounifi)) ∧
    (∀ e : AiounifiError,
      get_unifi_controller_errmap e = .cannotConnect ↔
        (e = .timeoutError ∨ e = .badGateway ∨ e = .serviceUnavailable ∨
         e = .requestError ∨ e = .responseError)) ∧
    (∀ e : AiounifiError,
      get_unifi_controller_errmap e = .invalidAuth ∨
      get_unifi_controller_errmap e = .cannotConnect) ∧
    async_setup_entry_errmap .cannotConnect = .configEntryNotReady ∧
    async_setup_entry_errmap .invalidAuth = .configEntryAuthFailed := by
  refine ⟨fun e => ?_, fun e => ?_, fun e => ?_, rfl, rfl⟩ <;> cases e <;> simp [get_unifi_controller_errmap]

/-! ### Heartbeat staleness sweep (controller.py 161-175) -/

/-- `UniFiController._async_check_for_stale`: walks the
`_heartbeat_time` map, emits the missed-heartbeat signal for every id whose
expire time is strictly before `now` (`if now > heartbeat_expire_time`),
collects those ids and deletes them from the map afterwards.  Returns the
emitted signals (in map order) and the updated map. -/
def async_check_for_stale (hb : List (String × Nat)) (now : Nat) :
    List String × List (String × Nat) :=
  let unique_ids_to_remove := (hb.filter fun p => decide (now > p.2)).map Prod.fst
  (unique_ids_to_remove, hb.filter fun p => decide (p.1 ∉ unique_ids_to_remove))

/-- In a map with pairwise distinct keys, two entries with the same key carry
the same value. -/
theorem assoc_value_unique {l : List (String × Nat)}
    (h : (l.map Prod.fst).Nodup) {a : String} {b c : Nat}
    (hb : (a, b) ∈ l) (hc : (a, c) ∈ l) : b = c := by
  induction l with
  | nil => cases hb
  | cons hd tl ih =>
    simp only [List.map_cons, List.nodup_cons] at h
    rcases List.mem_cons.1 hb with hb1 | hb2
    · rcases List.mem_cons.1 hc with hc1 | hc2
      · exact congrArg Prod.snd (hb1.trans hc1.symm)
      · subst hb1
        exact absurd (List.mem_map.2 ⟨(a, c), hc2, rfl⟩) h.1
    · rcases List.mem_cons.1 hc with hc1 | hc2
      · subst hc1
        exact absurd (List.mem_map.2 ⟨(a, b), hb2, rfl⟩) h.1
      · exact ih h.2 hb2 hc2

/-- Membership in the emitted signal list of one sweep. -/
theorem check_for_stale_signal_iff (hb : List (String × Nat)) (now : Nat)
    (id : String) :
    id ∈ (async_check_for_stale hb now).1 ↔ ∃ t, (id, t) ∈ hb ∧ t < now := by
  simp only [async_check_for_stale, List.mem_map, List.mem_filter,
    decide_eq_true_eq]
  constructor
  · rintro ⟨⟨a, b⟩, ⟨hmem, hlt⟩, rfl⟩
    exact ⟨b, hmem, hlt⟩
  · rintro ⟨t, hmem, hlt⟩
    exact ⟨(id, t), ⟨hmem, hlt⟩, rfl⟩

/-- Membership in the updated map of one sweep. -/
theorem check_for_stale_map_iff (hb : List (String × Nat)) (now : Nat)
    (id : String) (t : Nat) :
    (id, t) ∈ (async_check_for_stale hb now).2 ↔
      (id, t) ∈ hb ∧ id ∉ (async_check_for_stale hb now).1 := by
  simp only [async_check_for_stale, List.mem_filter, decide_eq_true_eq]

/-- The staleness-sweep contract of one invocation over a map with distinct
keys. -/
def CheckStaleSpec (hb : List (String × Nat)) (now : Nat) : Prop :=
  (async_check_for_stale hb now).1.Nodup ∧
  (∀ id, id ∈ (async_check_for_stale hb now).1 ↔
    ∃ t, (id, t) ∈ hb ∧ t < now) ∧
  (∀ id, id ∈ (async_check_for_stale hb now).1 ↔
    (id ∈ hb.map Prod.fst ∧
      id ∉ (async_check_for_stale hb now).2.map Prod.fst)) ∧
  (∀ id t, (id, t) ∈ hb → ¬ t < now →
    (id, t) ∈ (async_check_for_stale hb now).2) ∧
  (∀ id t, (id, t) ∈ (async_check_for_stale hb now).2 → (id, t) ∈ hb) ∧
  (∀ id, id ∉ hb.map Prod.fst → id ∉ (async_check_for_stale hb now).1) ∧
  (∀ id now2, id ∈ (async_check_for_stale hb now).1 →
    id ∉ (async_check_for_stale (async_check_for_stale hb now).2 now2).1)

/-- C3: the sweep signals an id iff it removes it from tracking; exactly the
ids whose stored timestamp is strictly older than `now` are signalled and
removed, each at most once and never again on a later sweep; entries with a
timestamp not older than `now` are kept unchanged; an id with no entry is
never signalled. -/
theorem c3_check_for_stale (hb : List (String × Nat)) (now : Nat)
    (hkeys : (hb.map Prod.fst).Nodup) : CheckStaleSpec hb now := by
  have hsig := check_for_stale_signal_iff hb now
  have hmap := check_for_stale_map_iff hb now
  have hnotin : ∀ (l : List (String × Nat)) (m : Nat) (id : String),
      id ∉ l.map Prod.fst → id ∉ (async_check_for_stale l m).1 := by
    intro l m id hno hin
    obtain ⟨t, hmem, _⟩ := (check_for_stale_signal_iff l m id).1 hin
    exact hno (List.mem_map.2 ⟨(id, t), hmem, rfl⟩)
  refine ⟨?_, hsig, ?_, ?_, ?_, hnotin hb now, ?_⟩
  · have hsub : (async_check_for_stale hb now).1.Sublist (hb.map Prod.fst) :=
      (List.filter_sublist hb).map Prod.fst
    exact hkeys.sublist hsub
  · intro id
    constructor
    · intro hin
      obtain ⟨t, hmem, hlt⟩ := (hsig id).1 hin
      refine ⟨List.mem_map.2 ⟨(id, t), hmem, rfl⟩, ?_⟩
      intro hkm
      obtain ⟨⟨a, b⟩, hmem2, hfst⟩ := List.mem_map.1 hkm
      rw [show a = id from hfst] at hmem2
      exact ((hmap id b).1 hmem2).2 hin
    · rintro ⟨hkm, hnot⟩
      obtain ⟨⟨a, t⟩, hmem, hfst⟩ := List.mem_map.1 hkm
      rw [show a = id from hfst] at hmem
      by_contra hns
      exact hnot (List.mem_map.2 ⟨(id, t), (hmap id t).2 ⟨hmem, hns⟩, rfl⟩)
  · intro id t hmem hge
    refine (hmap id t).2 ⟨hmem, ?_⟩
    intro hin
    obtain ⟨t2, hmem2, hlt2⟩ := (hsig id).1 hin
    exact hge (assoc_value_unique hkeys hmem2 hmem ▸ hlt2)
  · intro id t hmem
    exact ((hmap id t).1 hmem).1
  · intro id now2 hin hin2
    obtain ⟨t2, hmem2, _⟩ :=
      (check_for_stale_signal_iff (async_check_for_stale hb now).2 now2 id).1 hin2
    exact ((hmap id t2).1 hmem2).2 hin

/-- Witness for `c3_check_for_stale`: map with entries at times 1 and 5
swept at time 3. -/
theorem c3_check_for_stale_witness :
    (([("a", 1), ("b", 5)] : List (String × Nat)).map Prod.fst).Nodup ∧
    CheckStaleSpec [("a", 1), ("b", 5)] 3 :=
  ⟨by decide, c3_check_for_stale [("a", 1), ("b", 5)] 3 (by decide)⟩

/-! ### Entity registration (controller.py 78-126) -/

/-- Modelled from the spec: constructing a `UnifiEntity` records the pair
`(descriptor key, object id)` in the session's known-objects set.  The
constructor lives in `entity.py`, which is not among the sources (only its
declarations are imported), so this step follows the spec invariant that the
known-objects set is the duplicate guard enforced before instantiation. -/
def constructEntity (key obj_id : String) (known : List (String × String)) :
    List (String × String) :=
  (key, obj_id) :: known

/-- `async_add_unifi_entity` (controller.py 92-103): walks the object-id
list, keeps an id when `(description.key, obj_id)` is not in
`known_objects`, `allowed_fn` holds and `supported_fn` holds, and constructs
one adapter per survivor (each construction recording its pair in the
known-objects set).  Returns the list handed to `async_add_entities` and the
updated known-objects set. -/
def async_add_unifi_entity (key : String) (allowed_fn supported_fn : String → Bool) :
    List String → List (String × String) → List String × List (String × String)
  | [], known => ([], known)
  | obj_id :: rest, known =>
    if (key, obj_id) ∉ known ∧ allowed_fn obj_id ∧ supported_fn obj_id then
      let r := async_add_unifi_entity key allowed_fn supported_fn rest
        (constructEntity key obj_id known)
      (obj_id :: r.1, r.2)
    else
      async_add_unifi_entity key allowed_fn supported_fn rest known

/-- The known-objects set only grows across one registration call. -/
theorem add_entity_known_mono (key : String) (a s : String → Bool) :
    ∀ (ids : List String) (known : List (String × String))
      (p : String × String), p ∈ known →
      p ∈ (async_add_unifi_entity key a s ids known).2 := by
  intro ids
  induction ids with
  | nil =>
    intro known p hp
    exact hp
  | cons x rest ih =>
    intro known p hp
    by_cases hc : (key, x) ∉ known ∧ a x ∧ s x
    · simp only [async_add_unifi_entity, constructEntity, if_pos hc]
      exact ih _ p (List.mem_cons_of_mem _ hp)
    · simp only [async_add_unifi_entity, if_neg hc]
      exact ih known p hp

/-- Every id in the input that passes both predicate filters ends up in the
known-objects set after the call. -/
theorem add_entity_mem_known (key : String) (a s : String → Bool) :
    ∀ (ids : List String) (known : List (String × String)) (id : String),
      id ∈ ids → a id = true → s id = true →
      (key, id) ∈ (async_add_unifi_entity key a s ids known).2 := by
  intro ids
  induction ids with
  | nil =>
    intro known id hid _ _
    cases hid
  | cons x rest ih =>
    intro known id hid ha hs
    by_cases hc : (key, x) ∉ known ∧ a x ∧ s x
    · simp only [async_add_unifi_entity, constructEntity, if_pos hc]
      rcases List.mem_cons.1 hid with rfl | hid2
      · exact add_entity_known_mono key a s rest _ _ (List.mem_cons_self _ _)
      · exact ih _ id hid2 ha hs
    · simp only [async_add_unifi_entity, if_neg hc]
      rcases List.mem_cons.1 hid with rfl | hid2
      · have hmem : (key, id) ∈ known := by
          by_contra hnm
          exact hc ⟨hnm, ha, hs⟩
        exact add_entity_known_mono key a s rest known _ hmem
      · exact ih known id hid2 ha hs

/-- A call whose every id is either already known or filtered out creates
nothing and leaves the known-objects set unchanged. -/
theorem add_entity_no_new (key : String) (a s : String → Bool) :
    ∀ (ids : List String) (known : List (String × String)),
      (∀ id ∈ ids, (key, id) ∈ known ∨ ¬(a id = true ∧ s id = true)) →
      async_add_unifi_entity key a s ids known = ([], known) := by
  intro ids
  induction ids with
  | nil =>
    intro known _
    rfl
  | cons x rest ih =>
    intro known h
    have hx := h x (List.mem_cons_self x rest)
    have hc : ¬((key, x) ∉ known ∧ a x ∧ s x) := by
      rintro ⟨hnm, ha, hs⟩
      rcases hx with hmem | hnf
      · exact hnm hmem
      · exact hnf ⟨ha, hs⟩
    simp only [async_add_unifi_entity, if_neg hc]
    exact ih known fun id hid => h id (List.mem_cons_of_mem x hid)

/-- Re-running a registration call on its own output creates zero adapters. -/
theorem add_entity_idempotent (key : String) (a s : String → Bool)
    (ids : List String) (known : List (String × String)) :
    async_add_unifi_entity key a s ids
        (async_add_unifi_entity key a s ids known).2 =
      ([], (async_add_unifi_entity key a s ids known).2) := by
  apply add_entity_no_new
  intro id hid
  by_cases h : a id = true ∧ s id = true
  · exact Or.inl (add_entity_mem_known key a s ids known id hid h.1 h.2)
  · exact Or.inr h

/-- On a duplicate-free input list, the created adapters are exactly the ids
passing the three filters against the initial known-objects set. -/
theorem add_entity_created_eq_filter (key : String) (a s : String → Bool) :
    ∀ (ids : List String) (known : List (String × String)), ids.Nodup →
      (async_add_unifi_entity key a s ids known).1 =
        ids.filter fun id => decide ((key, id) ∉ known) && a id && s id := by
  intro ids
  induction ids with
  | nil =>
    intro known _
    rfl
  | cons x rest ih =>
    intro known hnd
    rw [List.nodup_cons] at hnd
    by_cases hc : (key, x) ∉ known ∧ a x ∧ s x
    · simp only [async_add_unifi_entity, constructEntity, if_pos hc]
      have hbx : (decide ((key, x) ∉ known) && a x && s x) = true := by
        simp only [Bool.and_eq_true, decide_eq_true_eq]
        exact ⟨⟨hc.1, hc.2.1⟩, hc.2.2⟩
      rw [List.filter_cons, if_pos hbx]
      congr 1
      rw [ih ((key, x) :: known) hnd.2]
      apply List.filter_congr
      intro id hid
      have hne : ¬ id = x := fun h => hnd.1 (h ▸ hid)
      have hiff : ((key, id) ∉ (key, x) :: known) ↔ ((key, id) ∉ known) := by
        simp [List.mem_cons, Prod.mk.injEq, hne]
      rw [decide_eq_decide.2 hiff]
    · simp only [async_add_unifi_entity, if_neg hc]
      have hbx : ¬((decide ((key, x) ∉ known) && a x && s x) = true) := by
        simp only [Bool.and_eq_true, decide_eq_true_eq]
        intro h
        exact hc ⟨h.1.1, h.1.2, h.2⟩
      rw [List.filter_cons, if_neg hbx]
      exact ih known hnd.2

/-- A created id was not in the known-objects set the call started from. -/
theorem add_entity_created_not_known (key : String) (a s : String → Bool) :
    ∀ (ids : List String) (known : List (String × String)) (id : String),
      id ∈ (async_add_unifi_entity key a s ids known).1 → (key, id) ∉ known := by
  intro ids
  induction ids with
  | nil =>
    intro known id h
    cases h
  | cons x rest ih =>
    intro known id h
    by_cases hc : (key, x) ∉ known ∧ a x ∧ s x
    · simp only [async_add_unifi_entity, constructEntity, if_pos hc] at h
      rcases List.mem_cons.1 h with rfl | h2
      · exact hc.1
      · intro hk
        exact ih _ id h2 (List.mem_cons_of_mem _ hk)
    · simp only [async_add_unifi_entity, if_neg hc] at h
      exact ih known id h

/-- A created id is in the known-objects set the call returns. -/
theorem add_entity_created_in_final (key : String) (a s : String → Bool) :
    ∀ (ids : List String) (known : List (String × String)) (id : String),
      id ∈ (async_add_unifi_entity key a s ids known).1 →
      (key, id) ∈ (async_add_unifi_entity key a s ids known).2 := by
  intro ids
  induction ids with
  | nil =>
    intro known id h
    cases h
  | cons x rest ih =>
    intro known id h
    by_cases hc : (key, x) ∉ known ∧ a x ∧ s x
    · simp only [async_add_unifi_entity, constructEntity, if_pos hc] at h ⊢
      rcases List.mem_cons.1 h with rfl | h2
      · exact add_entity_known_mono key a s rest _ _ (List.mem_cons_self _ _)
      · exact ih _ id h2
    · simp only [async_add_unifi_entity, if_neg hc] at h ⊢
      exact ih known id h

/-- One registration call creates each id at most once. -/
theorem add_entity_created_nodup (key : String) (a s : String → Bool) :
    ∀ (ids : List String) (known : List (String × String)),
      (async_add_unifi_entity key a s ids known).1.Nodup := by
  intro ids
  induction ids with
  | nil =>
    intro known
    exact List.nodup_nil
  | cons x rest ih =>
    intro known
    by_cases hc : (key, x) ∉ known ∧ a x ∧ s x
    · simp only [async_add_unifi_entity, constructEntity, if_pos hc]
      refine List.nodup_cons.2 ⟨?_, ih _⟩
      intro hx
      exact add_entity_created_not_known key a s rest _ x hx
        (List.mem_cons_self _ _)
    · simp only [async_add_unifi_entity, if_neg hc]
      exact ih known

/-- One registration call against the shared known-objects set: a descriptor
key with its two filter predicates and the object-id list it is handed
(an initial scan, a single added object, or an options-changed rescan). -/
structure RegistrationCall where
  key : String
  allowed_fn : String → Bool
  supported_fn : String → Bool
  obj_ids : List String

/-- A sequence of registration calls threaded through the shared
known-objects set; returns every created (entity-kind, object-id) pair in
order together with the final set. -/
def registrationSeq : List RegistrationCall → List (String × String) →
    List (String × String) × List (String × String)
  | [], known => ([], known)
  | c :: more, known =>
    let r := async_add_unifi_entity c.key c.allowed_fn c.supported_fn c.obj_ids known
    let r2 := registrationSeq more r.2
    (r.1.map (fun id => (c.key, id)) ++ r2.1, r2.2)

/-- No pair created anywhere in a registration sequence was in the
known-objects set the sequence started from. -/
theorem registrationSeq_created_not_known :
    ∀ (bs : List RegistrationCall) (known : List (String × String))
      (p : String × String), p ∈ (registrationSeq bs known).1 → p ∉ known := by
  intro bs
  induction bs with
  | nil =>
    intro known p hp
    cases hp
  | cons c more ih =>
    intro known p hp
    simp only [registrationSeq, List.mem_append] at hp
    rcases hp with hp1 | hp2
    · obtain ⟨id, hid, rfl⟩ := List.mem_map.1 hp1
      exact add_entity_created_not_known c.key _ _ c.obj_ids known id hid
    · intro hk
      exact ih _ p hp2
        (add_entity_known_mono c.key _ _ c.obj_ids known p hk)

/-- Across any sequence of registration calls, each (entity-kind, object-id)
pair is created at most once. -/
theorem registrationSeq_created_nodup :
    ∀ (bs : List RegistrationCall) (known : List (String × String)),
      (registrationSeq bs known).1.Nodup := by
  intro bs
  induction bs with
  | nil =>
    intro known
    exact List.nodup_nil
  | cons c more ih =>
    intro known
    simp only [registrationSeq]
    refine List.Nodup.append ?_ (ih _) ?_
    · exact (add_entity_created_nodup c.key _ _ c.obj_ids known).map
        fun a b hab => congrArg Prod.snd hab
    · intro p hp1 hp2
      obtain ⟨id, hid, rfl⟩ := List.mem_map.1 hp1
      have hfin := add_entity_created_in_final c.key _ _ c.obj_ids known id hid
      exact registrationSeq_created_not_known more _ _ hp2 hfin

/-- C4: registration constructs exactly one adapter per id passing the three
filters and hands them to the add-entities callback; re-running with the same
ids creates zero additional adapters; and across any sequence of registration
calls at most one adapter is ever created per (entity-kind, object-id) pair,
none of them already known. -/
theorem c4_register_platform (key : String) (a s : String → Bool) :
    (∀ (known : List (String × String)) (ids : List String), ids.Nodup →
      (async_add_unifi_entity key a s ids known).1 =
        ids.filter fun id => decide ((key, id) ∉ known) && a id && s id) ∧
    (∀ (known : List (String × String)) (ids : List String),
      async_add_unifi_entity key a s ids
          (async_add_unifi_entity key a s ids known).2 =
        ([], (async_add_unifi_entity key a s ids known).2)) ∧
    (∀ (bs : List RegistrationCall) (known : List (String × String)),
      (registrationSeq bs known).1.Nodup ∧
      ∀ p ∈ (registrationSeq bs known).1, p ∉ known) :=
  ⟨fun known ids h => add_entity_created_eq_filter key a s ids known h,
   fun known ids => add_entity_idempotent key a s ids known,
   fun bs known => ⟨registrationSeq_created_nodup bs known,
     fun p hp => registrationSeq_created_not_known bs known p hp⟩⟩

/-- Witness for `c4_register_platform` on a two-outlet scan starting from an
empty known-objects set. -/
theorem c4_register_platform_witness :
    (["m_1", "m_2"] : List String).Nodup ∧
    (async_add_unifi_entity "Outlet control" (fun _ => true) (fun _ => true)
        ["m_1", "m_2"] []).1 =
      ["m_1", "m_2"].filter fun id =>
        decide (("Outlet control", id) ∉ ([] : List (String × String))) &&
          (fun _ => true) id && (fun _ => true) id :=
  ⟨by decide,
    (c4_register_platform "Outlet control" (fun _ => true) (fun _ => true)).1
      [] ["m_1", "m_2"] (by decide)⟩

/-! ### Reconnect loop (controller.py 35, 177-197) -/

/-- `RETRY_TIMER` (controller.py line 35): the fixed retry delay in seconds. -/
def RETRY_TIMER : Nat := 15

/-- The bound in seconds of the `async_timeout` block wrapping
`api.login()` and `api.start_websocket()` inside `async_reconnect`. -/
def reconnectTimeoutSeconds : Nat := 5

/-- The transport failures `async_reconnect` catches: `asyncio.TimeoutError`,
`aiounifi.BadGateway`, `aiounifi.ServiceUnavailable` and any further
`aiounifi.AiounifiException`. -/
inductive TransportFailure
  | timeoutError
  | badGateway
  | serviceUnavailable
  | otherAiounifi
deriving DecidableEq, Repr

/-- Outcome of one reconnect attempt: the login-plus-stream-restart body is
cut off with a timeout error when its duration exceeds the bound; otherwise
the transport outcome stands (`none` meaning success). -/
def reconnectAttemptOutcome (loginDuration : Nat)
    (transport : Option TransportFailure) : Option TransportFailure :=
  if reconnectTimeoutSeconds < loginDuration then some .timeoutError
  else transport

/-- `UniFiController.async_reconnect` (controller.py 184-197): the delays of
the retries one attempt schedules — a failed attempt runs
`hass.loop.call_later(RETRY_TIMER, self.reconnect)` exactly once, a
successful attempt schedules nothing. -/
def async_reconnect (loginDuration : Nat)
    (transport : Option TransportFailure) : List Nat :=
  match reconnectAttemptOutcome loginDuration transport with
  | none => []
  | some _ => [RETRY_TIMER]

/-- The whole retry chain driven by one initial trigger: each scheduled
retry, when it fires, runs the next attempt of the trace; the chain stops at
the first successful attempt. -/
def reconnectLoop : List (Nat × Option TransportFailure) → List Nat
  | [] => []
  | att :: rest =>
    match async_reconnect att.1 att.2 with
    | [] => []
    | ds => ds ++ reconnectLoop rest

/-- C5: each attempt runs login plus stream restart under the five-second
bound (an overlong body fails with a timeout); each failed attempt schedules
exactly one retry with the fixed fifteen-second delay; a successful attempt
schedules none; and a chain of N consecutive transport failures followed by a
success schedules exactly N retries, all with that fixed delay. -/
theorem c5_reconnect_retries :
    RETRY_TIMER = 15 ∧
    reconnectTimeoutSeconds = 5 ∧
    (∀ dur t, reconnectTimeoutSeconds < dur →
      reconnectAttemptOutcome dur t = some .timeoutError) ∧
    (∀ dur t, reconnectAttemptOutcome dur t = none →
      async_reconnect dur t = []) ∧
    (∀ dur t f, reconnectAttemptOutcome dur t = some f →
      async_reconnect dur t = [RETRY_TIMER]) ∧
    (∀ (n : Nat) (f : TransportFailure),
      reconnectLoop (List.replicate n (0, some f) ++ [(0, none)]) =
        List.replicate n RETRY_TIMER) := by
  refine ⟨rfl, rfl, ?_, ?_, ?_, ?_⟩
  · intro dur t h
    simp [reconnectAttemptOutcome, h]
  · intro dur t h
    simp [async_reconnect, h]
  · intro dur t f h
    simp [async_reconnect, h]
  · intro n f
    induction n with
    | zero => rfl
    | succ m ih =>
      simp only [List.replicate_succ, List.cons_append, reconnectLoop]
      rw [show async_reconnect (0, some f).1 (0, some f).2 = [RETRY_TIMER] from rfl]
      simpa using congrArg (fun l => RETRY_TIMER :: l) ih

/-- Witness for `c5_reconnect_retries`: an attempt overrunning the bound, a
successful attempt, and a failed attempt. -/
theorem c5_reconnect_retries_witness :
    (reconnectTimeoutSeconds < 7 ∧
      reconnectAttemptOutcome 7 none = some .timeoutError) ∧
    (reconnectAttemptOutcome 0 none = none ∧ async_reconnect 0 none = []) ∧
    (reconnectAttemptOutcome 0 (some .badGateway) = some .badGateway ∧
      async_reconnect 0 (some .badGateway) = [RETRY_TIMER]) :=
  ⟨⟨by decide, c5_reconnect_retries.2.2.1 7 none (by decide)⟩,
   ⟨by decide, c5_reconnect_retries.2.2.2.1 0 none (by decide)⟩,
   ⟨by decide, c5_reconnect_retries.2.2.2.2.1 0 (some .badGateway)
      .badGateway (by decide)⟩⟩

/-! ### Reentrancy of reconnect (controller.py 177-182) -/

/-- The reconnect attempt tasks currently pending or running on the event
loop. -/
structure ReconnectTasks where
  inFlight : Nat
deriving DecidableEq, Repr

/-- `UniFiController.reconnect`: optionally logs, then unconditionally runs
`hass.loop.create_task(self.async_reconnect())` — there is no in-flight flag
or other guard consulted before creating the task. -/
def reconnect (s : ReconnectTasks) : ReconnectTasks :=
  ⟨s.inFlight + 1⟩

/-- Completion of one reconnect attempt task. -/
def reconnectTaskDone (s : ReconnectTasks) : ReconnectTasks :=
  ⟨s.inFlight - 1⟩

/-- C6, as stated, is false: two calls of `reconnect` with no attempt
completing in between (for example two triggers landing in the same event
loop tick) leave two reconnect attempts in flight. -/
theorem c6_counterexample :
    (reconnect (reconnect ⟨0⟩)).inFlight = 2 ∧
    ¬ (reconnect (reconnect ⟨0⟩)).inFlight ≤ 1 := by
  decide

/-- C6 amended: `reconnect` carries no reentrancy guard at all — every call
unconditionally creates one more reconnect attempt task, whatever the number
already in flight; only the retry chain itself is serialized, each failed
attempt scheduling exactly one retry. -/
theorem c6_reconnect_unguarded (s : ReconnectTasks) :
    reconnect s = ⟨s.inFlight + 1⟩ :=
  rfl

/-! ### State refresh of the switch adapter (switch.py 151-163, 191-193) -/

/-- Cached switch-entity state for the refresh paths: the `_attr_is_on` flag
and the `only_event_for_state_change` configuration. -/
structure SwitchState where
  attr_is_on : Option Bool
  only_event_for_state_change : Bool
deriving DecidableEq, Repr

/-- `UnifiSwitchEntity.async_update_state` (switch.py 151-163): returns early
when `only_event_for_state_change` is set, otherwise derives on/off as
`is_on_fn` of the current object snapshot (`outlet.relay_state`) and assigns
`_attr_is_on` only when the derived value differs from `self.is_on`.  The
boolean result records whether the cached flag was written. -/
def async_update_state (st : SwitchState) (relay_state : Bool) :
    SwitchState × Bool :=
  if st.only_event_for_state_change then (st, false)
  else if some relay_state ≠ st.attr_is_on then
    ({ st with attr_is_on := some relay_state }, true)
  else (st, false)

/-- `UnifiSwitchEntity.async_update` (switch.py 191-193): assigns
`_attr_is_on = bool(random.getrandbits(1))` unconditionally — the drawn
random bit is a parameter here.  The boolean result records that the cached
flag was written. -/
def async_update (st : SwitchState) (random_bit : Bool) :
    SwitchState × Bool :=
  ({ st with attr_is_on := some random_bit }, true)

/-- C7 fails on `async_update`: with the cached flag `false`, the snapshot
relay state `false` and the drawn random bit `1`, the host-poll refresh
writes `true` into the cached flag, while the derivation through `is_on_fn`
(done by `async_update_state` on the same snapshot) leaves the flag
unwritten at `false`. -/
theorem c7_random_update_bug :
    async_update ⟨some false, false⟩ true = (⟨some true, false⟩, true) ∧
    async_update_state ⟨some false, false⟩ false = (⟨some false, false⟩, false) ∧
    (⟨some true, false⟩ : SwitchState) ≠ ⟨some false, false⟩ := by
  refine ⟨rfl, ?_, by decide⟩
  decide

/-! ### Push-event callback of the switch adapter (switch.py 165-178) -/

/-- Cached switch-entity state observed by the event callback: the on/off
flag, the availability flag and a count of host state notifications
(`async_write_ha_state` calls). -/
structure EventEntityState where
  attr_is_on : Option Bool
  attr_available : Bool
  ha_state_writes : Nat
deriving DecidableEq, Repr

/-- A delivered push event: source device mac and event key. -/
structure PushEvent where
  mac : String
  key : String
deriving DecidableEq, Repr

/-- `UnifiSwitchEntity.async_event_callback` (switch.py 165-178): returns
early when the event mac differs from the object id; otherwise (with the
description's `event_to_subscribe` and `event_is_on` being tuples, here
lists) assigns the on/off flag only when the key is subscribed — to whether
the key is an on key — then always refreshes availability from the
description's availability function (its current value is the
`available_now` parameter) and writes the host-visible state once. -/
def async_event_callback (obj_id : String)
    (event_to_subscribe event_is_on : List String) (available_now : Bool)
    (st : EventEntityState) (e : PushEvent) : EventEntityState :=
  if e.mac ≠ obj_id then st
  else
    let st1 := if e.key ∈ event_to_subscribe then
        { st with attr_is_on := some (decide (e.key ∈ event_is_on)) }
      else st
    { st1 with attr_available := available_now,
               ha_state_writes := st1.ha_state_writes + 1 }

/-- C8: an event whose mac differs leaves cached state, availability and the
host-visible state untouched; a matching event always refreshes availability
and notifies the host once, even for an unsubscribed key; the on/off flag
itself changes only for a subscribed key, becoming true exactly when the key
is an on key. -/
theorem c8_event_callback (obj_id : String)
    (event_to_subscribe event_is_on : List String) (available_now : Bool)
    (st : EventEntityState) (e : PushEvent) :
    (e.mac ≠ obj_id →
      async_event_callback obj_id event_to_subscribe event_is_on
        available_now st e = st) ∧
    (e.mac = obj_id →
      (async_event_callback obj_id event_to_subscribe event_is_on
          available_now st e).attr_available = available_now ∧
      (async_event_callback obj_id event_to_subscribe event_is_on
          available_now st e).ha_state_writes = st.ha_state_writes + 1 ∧
      (e.key ∉ event_to_subscribe →
        (async_event_callback obj_id event_to_subscribe event_is_on
            available_now st e).attr_is_on = st.attr_is_on) ∧
      (e.key ∈ event_to_subscribe →
        (async_event_callback obj_id event_to_subscribe event_is_on
            available_now st e).attr_is_on =
          some (decide (e.key ∈ event_is_on)))) := by
  constructor
  · intro hne
    simp [async_event_callback, hne]
  · intro heq
    by_cases hkey : e.key ∈ event_to_subscribe <;>
      simp [async_event_callback, heq, hkey]

/-- Witness for `c8_event_callback`: a mismatched event and a matched event
with a subscribed key that is not an on key. -/
theorem c8_event_callback_witness :
    (async_event_callback "m" ["k1"] ["k2"] true ⟨some true, false, 0⟩
        ⟨"x", "k1"⟩ = ⟨some true, false, 0⟩) ∧
    ((async_event_callback "m" ["k1"] ["k2"] true ⟨some true, false, 0⟩
        ⟨"m", "k1"⟩).attr_available = true) ∧
    ((async_event_callback "m" ["k1"] ["k2"] true ⟨some true, false, 0⟩
        ⟨"m", "k1"⟩).ha_state_writes = 0 + 1) ∧
    ((async_event_callback "m" ["k1"] ["k2"] true ⟨some true, false, 0⟩
        ⟨"m", "k1"⟩).attr_is_on = some (decide ("k1" ∈ (["k2"] : List String)))) :=
  ⟨(c8_event_callback "m" ["k1"] ["k2"] true ⟨some true, false, 0⟩
      ⟨"x", "k1"⟩).1 (by decide),
   ((c8_event_callback "m" ["k1"] ["k2"] true ⟨some true, false, 0⟩
      ⟨"m", "k1"⟩).2 rfl).1,
   ((c8_event_callback "m" ["k1"] ["k2"] true ⟨some true, false, 0⟩
      ⟨"m", "k1"⟩).2 rfl).2.1,
   ((c8_event_callback "m" ["k1"] ["k2"] true ⟨some true, false, 0⟩
      ⟨"m", "k1"⟩).2 rfl).2.2.2 (by decide)⟩

/-! ### Config entry unload (init module 57-62) -/

/-- Model of `dict.pop(key)` on the per-domain registry: removes the entry
when the key is present, raises `KeyError` (returns `none`) otherwise. -/
def dict_pop {α : Type} (registry : List (String × α)) (k : String) :
    Option (List (String × α)) :=
  if k ∈ registry.map Prod.fst then
    some (registry.filter fun p => decide (p.1 ≠ k))
  else none

/-- `async_unload_entry`: awaits the platform unload; when it succeeds, pops
the entry id from `hass.data[DOMAIN]`; returns the unload result either way
(`none` models the `KeyError` of popping an absent id). -/
def async_unload_entry {α : Type} (unload_ok : Bool)
    (registry : List (String × α)) (entry_id : String) :
    Option (Bool × List (String × α)) :=
  if unload_ok then (dict_pop registry entry_id).map fun r => (true, r)
  else some (false, registry)

/-- C9: with the entry present in the registry, a failed platform unload
returns `False` and leaves the registry untouched, while a successful one
returns `True` with exactly that entry removed and every other entry kept —
the entry is removed if and only if the platform unload succeeds. -/
theorem c9_unload_entry {α : Type} (registry : List (String × α))
    (entry_id : String) (h : entry_id ∈ registry.map Prod.fst) :
    async_unload_entry false registry entry_id = some (false, registry) ∧
    async_unload_entry true registry entry_id =
      some (true, registry.filter fun p => decide (p.1 ≠ entry_id)) ∧
    entry_id ∉ (registry.filter fun p => decide (p.1 ≠ entry_id)).map Prod.fst ∧
    (∀ p ∈ registry, p.1 ≠ entry_id →
      p ∈ registry.filter fun p => decide (p.1 ≠ entry_id)) ∧
    (∀ p ∈ registry.filter (fun p => decide (p.1 ≠ entry_id)), p ∈ registry) := by
  refine ⟨rfl, ?_, ?_, ?_, ?_⟩
  · simp [async_unload_entry, dict_pop, h]
  · intro hin
    obtain ⟨p, hp, hfst⟩ := List.mem_map.1 hin
    exact absurd hfst (by simpa using (List.mem_filter.1 hp).2)
  · intro p hp hne
    exact List.mem_filter.2 ⟨hp, by simpa using hne⟩
  · intro p hp
    exact (List.mem_filter.1 hp).1

/-- Witness for `c9_unload_entry` on a one-entry registry. -/
theorem c9_unload_entry_witness :
    ("e" ∈ ([("e", 7)] : List (String × Nat)).map Prod.fst) ∧
    (async_unload_entry false [("e", 7)] "e" = some (false, [("e", 7)]) ∧
     async_unload_entry true [("e", 7)] "e" =
       some (true, ([("e", 7)] : List (String × Nat)).filter
         fun p => decide (p.1 ≠ "e")) ∧
     "e" ∉ (([("e", 7)] : List (String × Nat)).filter
       (fun p => decide (p.1 ≠ "e"))).map Prod.fst ∧
     (∀ p ∈ ([("e", 7)] : List (String × Nat)), p.1 ≠ "e" →
       p ∈ ([("e", 7)] : List (String × Nat)).filter
         fun p => decide (p.1 ≠ "e")) ∧
     (∀ p ∈ ([("e", 7)] : List (String × Nat)).filter
        (fun p => decide (p.1 ≠ "e")), p ∈ ([("e", 7)] : List (String × Nat)))) :=
  ⟨by decide, c9_unload_entry [("e", 7)] "e" (by decide)⟩

/-! ### Session metadata resolution (controller.py 143-159) -/

/-- A site entry of the sites response: its "name", "_id" and "desc"
fields. -/
structure SiteInfo where
  name : String
  internal_id : String
  desc : String
deriving DecidableEq, Repr

/-- The fixed configured site: `self.site = "default"` (controller.py 58). -/
def configuredSite : String := "default"

/-- The site-scanning loop (controller.py 147-152): the first sites-response
entry whose "name" equals the configured site sets the site id and site
name and breaks; with no match the site id stays the empty string and the
site name stays unset. -/
def resolveSite (sites : List SiteInfo) : String × Option String :=
  match sites.find? fun site => site.name == configuredSite with
  | some site => (site.internal_id, some site.desc)
  | none => ("", none)

/-- Lookup of a field in one site-description entry, modelled as an
association list (`KeyError`, i.e. `none`, when the field is absent). -/
def lookupField (fields : List (String × String)) (k : String) :
    Option String :=
  (fields.find? fun p => p.1 == k).map Prod.snd

/-- `UniFiController.initialize` after the api calls (controller.py
147-155): resolves site id and site name by the scanning loop, then reads
`description[0]["site_role"]` unguarded — an empty site-description response
(`IndexError`) or a first element without the "site_role" field (`KeyError`)
raises, modelled as `none`; otherwise the resolved triple is returned. -/
def controllerInitMeta (sites : List SiteInfo)
    (description : List (List (String × String))) :
    Option (String × Option String × String) :=
  match description.head? with
  | none => none
  | some first =>
    match lookupField first "site_role" with
    | none => none
    | some role => some ((resolveSite sites).1, (resolveSite sites).2, role)

/-- C10: with no sites-response entry named "default" the site id stays the
empty string and the site name stays unset, yet the run proceeds to the
site-description read; the run completes without error exactly when the
site-description response is a non-empty list whose first element carries a
"site_role" field, and then returns the resolved metadata. -/
theorem c10_init_meta (sites : List SiteInfo)
    (description : List (List (String × String))) :
    ((sites.find? fun site => site.name == configuredSite) = none →
      resolveSite sites = ("", none) ∧
      controllerInitMeta sites description =
        (description.head?.bind fun first =>
          (lookupField first "site_role").map fun role => ("", none, role))) ∧
    ((controllerInitMeta sites description).isSome ↔
      ∃ first, description.head? = some first ∧
        (lookupField first "site_role").isSome) ∧
    (∀ first role, description.head? = some first →
      lookupField first "site_role" = some role →
      controllerInitMeta sites description =
        some ((resolveSite sites).1, (resolveSite sites).2, role)) := by
  refine ⟨?_, ?_, ?_⟩
  · intro hnone
    have hres : resolveSite sites = ("", none) := by
      simp [resolveSite, hnone]
    refine ⟨hres, ?_⟩
    cases hhead : description.head? with
    | none => simp [controllerInitMeta, hhead]
    | some first =>
      cases hrole : lookupField first "site_role" with
      | none => simp [controllerInitMeta, hhead, hrole]
      | some role => simp [controllerInitMeta, hhead, hrole, hres]
  · cases hhead : description.head? with
    | none => simp [controllerInitMeta, hhead]
    | some first =>
      cases hrole : lookupField first "site_role" with
      | none => simp [controllerInitMeta, hhead, hrole]
      | some role => simp [controllerInitMeta, hhead, hrole]
  · intro first role hhead hrole
    simp [controllerInitMeta, hhead, hrole]

/-- Witness for `c10_init_meta`: a sites response without a "default" entry
and a site-description response carrying a "site_role" field. -/
theorem c10_init_meta_witness :
    (resolveSite [⟨"other", "i1", "Other site"⟩] = ("", none) ∧
      controllerInitMeta [⟨"other", "i1", "Other site"⟩]
          [[("site_role", "admin")]] =
        (([[("site_role", "admin")]] :
            List (List (String × String))).head?.bind fun first =>
          (lookupField first "site_role").map fun role => ("", none, role))) ∧
    controllerInitMeta [⟨"other", "i1", "Other site"⟩]
        [[("site_role", "admin")]] =
      some ((resolveSite [⟨"other", "i1", "Other site"⟩]).1,
        (resolveSite [⟨"other", "i1", "Other site"⟩]).2, "admin") :=
  ⟨(c10_init_meta [⟨"other", "i1", "Other site"⟩]
      [[("site_role", "admin")]]).1 (by decide),
   (c10_init_meta [⟨"other", "i1", "Other site"⟩]
      [[("site_role", "admin")]]).2.2 [("site_role", "admin")] "admin" rfl rfl⟩

end UnifiPdu
